import Mathlib

/-!
Verification of the Domin8 battle-royale betting program
(repository llPekoll/royalrumble, crate src/programs/domin8_prgm).

Shallow embedding conventions:
* u64 values are modelled as Nat; arithmetic that the Rust source performs
  with wraparound (release-mode overflow of the u64 sum in
  select_weighted_winner) is written with an explicit % 2^64, saturating
  operations with min/truncated subtraction, and checked operations with an
  explicit bound test returning ArithmeticOverflow.
* i64 timestamps are modelled as Int.
* Pubkeys are modelled as Nat identifiers; Pubkey::default() is 0.
* Fallible instructions return Except Domin8Error; on the chain a failed
  instruction commits none of its writes, so an error result stands for
  "no state change".
* The keccak hash used for force (entropy-seed) rotation is abstracted as a
  function parameter h : List Nat -> List Nat applied to the exact byte
  string the source hashes.
-/

namespace Domin8

/-- 2^64, the modulus of the u64 type. -/
def U64MOD : Nat := 18446744073709551616

/-- 2^128, the modulus of the u128 type. -/
def U128MOD : Nat := 340282366920938463463374607431768211456

/-- u64 saturating_add as used in the Rust source. -/
def satAdd64 (a b : Nat) : Nat := min (a + b) (U64MOD - 1)

/-- The wrapping u64 sum computed by bet_amounts[..bet_count].iter().sum()
in release mode (overflow wraps modulo 2^64). -/
def wrapSum64 (l : List Nat) : Nat := l.sum % U64MOD

/-- Error codes of the program (errors.rs, together with the variants used
by the instruction files whose declaration iteration is absent from the
snapshot: BetsLocked, MaxBetsReached, BetTooLarge, BettingWindowClosed,
BettingWindowStillOpen, CannotCleanupActiveGame, GameTooRecentToCleanup,
InvalidBetEntry; their names are fixed by the require! sites). -/
inductive Domin8Error where
  | InvalidGameStatus
  | Unauthorized
  | BetsLocked
  | BetTooSmall
  | BetTooLarge
  | BettingWindowClosed
  | BettingWindowStillOpen
  | InsufficientFunds
  | MaxBetsReached
  | InvalidBetEntry
  | InvalidVrfAccount
  | RandomnessNotFulfilled
  | NoPlayers
  | InvalidBetAmount
  | ArithmeticOverflow
  | AlreadyClaimed
  | InvalidTreasury
  | CannotCleanupActiveGame
  | GameTooRecentToCleanup
  deriving DecidableEq, Repr

/-- Game status enumeration (state/game_round.rs). -/
inductive GameStatus where
  | Idle
  | Waiting
  | AwaitingWinnerRandomness
  | Finished
  deriving DecidableEq, Repr, Inhabited

/-- Inner loop of GameUtils::select_weighted_winner (utils.rs lines 50-62):
walk the active bet amounts keeping a saturating cumulative sum and return
the first index whose cumulative sum strictly exceeds the winning
position. -/
def selectLoop (amounts : List Nat) (pos cumulative idx : Nat) : Option Nat :=
  match amounts with
  | [] => none
  | a :: rest =>
    let c := satAdd64 cumulative a
    if pos < c then some idx else selectLoop rest pos c (idx + 1)

/-- GameUtils::select_weighted_winner (utils.rs lines 28-67).
bet_amounts stands for the fixed [u64; 64] array, bet_count for the active
count and randomness for the VRF u64.  The u64 sum of the active amounts is
taken with release-mode wraparound (wrapSum64); the cumulative sums use
saturating_add as the source does. -/
def select_weighted_winner (bet_amounts : List Nat) (bet_count randomness : Nat) :
    Except Domin8Error Nat :=
  if bet_count = 0 then .error .NoPlayers
  else if 64 < bet_count then .error .MaxBetsReached
  else if wrapSum64 (bet_amounts.take bet_count) = 0 then .error .InvalidBetAmount
  else
    match selectLoop (bet_amounts.take bet_count)
        (randomness % wrapSum64 (bet_amounts.take bet_count)) 0 0 with
    | some i => .ok i
    | none => .ok (bet_count - 1)

/-- GameUtils::calculate_house_fee (utils.rs lines 115-127): validate
fee_bps <= 10000, multiply in u128 with checked_mul, checked-divide by
10000, then cast the quotient back to u64 (a truncating cast, written as
% 2^64). -/
def calculate_house_fee (total_pot fee_bps : Nat) : Except Domin8Error Nat :=
  if 10000 < fee_bps then .error .InvalidBetAmount
  else
    let product := total_pot * fee_bps
    if U128MOD ≤ product then .error .ArithmeticOverflow
    else .ok (product / 10000 % U64MOD)

/-- GameUtils::calculate_winner_payout (utils.rs lines 137-140):
total_pot.saturating_sub(house_fee); Nat subtraction is exactly u64
saturating_sub. -/
def calculate_winner_payout (total_pot fee_bps : Nat) : Except Domin8Error Nat :=
  match calculate_house_fee total_pot fee_bps with
  | .error e => .error e
  | .ok house_fee => .ok (total_pot - house_fee)

/-! ### Lemmas about the selection loop -/

/-- Prefix sums of a Nat list are monotone in the prefix length. -/
lemma sum_take_mono (l : List Nat) : ∀ i j, i ≤ j → (l.take i).sum ≤ (l.take j).sum := by
  induction l with
  | nil => intro i j _; simp
  | cons a t ih =>
    intro i j hij
    cases i with
    | zero => simp
    | succ i2 =>
      cases j with
      | zero => omega
      | succ j2 =>
        simp only [List.take_succ_cons, List.sum_cons]
        exact Nat.add_le_add_left (ih i2 j2 (Nat.succ_le_succ_iff.mp hij)) a

/-- Exact behaviour of selectLoop when the cumulative sums do not saturate:
it lands on the unique half-open window containing the position. -/
lemma selectLoop_eq : ∀ (l : List Nat) (pos c idx : Nat),
    c + l.sum < U64MOD → c ≤ pos → pos < c + l.sum →
    ∃ j, j < l.length ∧ selectLoop l pos c idx = some (idx + j) ∧
      c + (l.take j).sum ≤ pos ∧ pos < c + (l.take (j + 1)).sum := by
  intro l
  induction l with
  | nil =>
    intro pos c idx _ hc hlt
    simp only [List.sum_nil, Nat.add_zero] at hlt
    omega
  | cons a t ih =>
    intro pos c idx hsat hc hlt
    simp only [List.sum_cons] at hsat hlt
    have hca : c + a < U64MOD := by omega
    have hmin : satAdd64 c a = c + a := by
      have h : c + a ≤ U64MOD - 1 := by omega
      simp [satAdd64, Nat.min_eq_left h]
    by_cases hpos : pos < c + a
    · refine ⟨0, by simp, ?_, ?_, ?_⟩
      · simp [selectLoop, hmin, hpos]
      · simpa using hc
      · simpa using hpos
    · obtain ⟨j, hjl, heq, hlow, hhigh⟩ :=
        ih pos (c + a) (idx + 1) (by omega) (by omega) (by omega)
      refine ⟨j + 1, by simp; omega, ?_, ?_, ?_⟩
      · have hstep : selectLoop (a :: t) pos c idx = selectLoop t pos (c + a) (idx + 1) := by
          simp [selectLoop, hmin, hpos]
        rw [hstep, heq]
        congr 1
        omega
      · simp only [List.take_succ_cons, List.sum_cons]
        omega
      · simp only [List.take_succ_cons, List.sum_cons]
        omega

/-- C1 (counterexample): the claim quantifies over every bet list and takes
total_weight to be the mathematical sum of the active amounts.  With
bet_amounts = [2^63, 2^63, 0, ...] (64 entries), bet_count = 2 and any
randomness, the mathematical sum is 2^64 > 0, so the claim demands Ok(i);
but the u64 sum computed by the source wraps to 0 and the function returns
the InvalidBetAmount error instead. -/
theorem select_weighted_winner_overflow_cex :
    0 < (([9223372036854775808, 9223372036854775808] ++
        List.replicate 62 0).take 2).sum ∧
    1 ≤ 2 ∧ 2 ≤ 64 ∧
    select_weighted_winner
      ([9223372036854775808, 9223372036854775808] ++ List.replicate 62 0) 2 0 =
      .error .InvalidBetAmount := by
  refine ⟨by norm_num, by norm_num, by norm_num, ?_⟩
  rfl

/-- C1 (amended): for every 64-entry bet list with 1 <= bet_count <= 64
whose active amounts have a mathematical sum that is positive AND fits in
u64 (the amendment forced by the overflow counterexample), and every
randomness value, select_weighted_winner returns Ok(i) for the unique index
i with cumulative(i-1) <= randomness % total_weight < cumulative(i); with
bet_count = 1 the index is 0.  Moreover whenever the active sum is 0 the
function returns an error. -/
theorem select_weighted_winner_spec :
    (∀ (bet_amounts : List Nat) (bet_count randomness : Nat),
      bet_amounts.length = 64 → 1 ≤ bet_count → bet_count ≤ 64 →
      0 < ((bet_amounts.take bet_count).sum) →
      (bet_amounts.take bet_count).sum < U64MOD →
      ∃ i, select_weighted_winner bet_amounts bet_count randomness = .ok i ∧
        i < bet_count ∧
        ((bet_amounts.take bet_count).take i).sum ≤
          randomness % (bet_amounts.take bet_count).sum ∧
        randomness % (bet_amounts.take bet_count).sum <
          ((bet_amounts.take bet_count).take (i + 1)).sum ∧
        (∀ j, j < bet_count →
          ((bet_amounts.take bet_count).take j).sum ≤
            randomness % (bet_amounts.take bet_count).sum →
          randomness % (bet_amounts.take bet_count).sum <
            ((bet_amounts.take bet_count).take (j + 1)).sum →
          j = i) ∧
        (bet_count = 1 → i = 0)) ∧
    (∀ (bet_amounts : List Nat) (bet_count randomness : Nat),
      1 ≤ bet_count → bet_count ≤ 64 →
      (bet_amounts.take bet_count).sum = 0 →
      select_weighted_winner bet_amounts bet_count randomness =
        .error .InvalidBetAmount) := by
  constructor
  · intro bet_amounts bet_count randomness hlen h1 h64 hpos hov
    set L := bet_amounts.take bet_count with hL
    have hLlen : L.length = bet_count := by
      rw [hL, List.length_take, hlen]
      omega
    have hwrap : wrapSum64 L = L.sum := by
      simp [wrapSum64, Nat.mod_eq_of_lt hov]
    have hmod : randomness % L.sum < L.sum := Nat.mod_lt _ hpos
    obtain ⟨j, hjl, heq, hlow, hhigh⟩ :=
      selectLoop_eq L (randomness % L.sum) 0 0 (by omega) (Nat.zero_le _) (by omega)
    simp only [Nat.zero_add] at hlow hhigh heq
    refine ⟨j, ?_, by omega, hlow, hhigh, ?_, by omega⟩
    · unfold select_weighted_winner
      rw [if_neg (by omega), if_neg (by omega), ← hL, hwrap, if_neg (by omega), heq]
    · intro j2 hj2 hlow2 hhigh2
      rcases Nat.lt_trichotomy j2 j with hcase | hcase | hcase
      · have hmono := sum_take_mono L (j2 + 1) j (by omega)
        omega
      · exact hcase
      · have hmono := sum_take_mono L (j + 1) j2 (by omega)
        omega
  · intro bet_amounts bet_count randomness h1 h64 hzero
    unfold select_weighted_winner
    rw [if_neg (by omega), if_neg (by omega), if_pos (by simp [wrapSum64, hzero])]

/-- C1 (witness): concrete instantiations of both halves of the amended
theorem; bets [5, 3, 2] with randomness 14 give position 4, inside bet 0's
window [0, 5). -/
theorem select_weighted_winner_spec_witness :
    (∃ i, select_weighted_winner ([5, 3, 2] ++ List.replicate 61 0) 3 14 = .ok i ∧
      i < 3 ∧
      ((([5, 3, 2] ++ List.replicate 61 0).take 3).take i).sum ≤
        14 % (([5, 3, 2] ++ List.replicate 61 0).take 3).sum ∧
      14 % (([5, 3, 2] ++ List.replicate 61 0).take 3).sum <
        ((([5, 3, 2] ++ List.replicate 61 0).take 3).take (i + 1)).sum ∧
      (∀ j, j < 3 →
        ((([5, 3, 2] ++ List.replicate 61 0).take 3).take j).sum ≤
          14 % (([5, 3, 2] ++ List.replicate 61 0).take 3).sum →
        14 % (([5, 3, 2] ++ List.replicate 61 0).take 3).sum <
          ((([5, 3, 2] ++ List.replicate 61 0).take 3).take (j + 1)).sum →
        j = i) ∧
      (3 = 1 → i = 0)) ∧
    select_weighted_winner (List.replicate 64 0) 2 7 = .error .InvalidBetAmount := by
  constructor
  · exact select_weighted_winner_spec.1 ([5, 3, 2] ++ List.replicate 61 0) 3 14
      (by decide) (by decide) (by decide) (by decide) (by decide)
  · exact select_weighted_winner_spec.2 (List.replicate 64 0) 2 7
      (by decide) (by decide) (by decide)

/-! ### C2: house fee and payout bound -/

/-- C2: for every u64 total_pot and fee_bps <= 10000, calculate_house_fee
returns exactly floor(total_pot * fee_bps / 10000) (the u128 intermediate
never overflows and the cast back to u64 is lossless), the winner payout is
total_pot - fee, and winner_payout + house_fee <= total_pot. -/
theorem calculate_house_fee_spec (total_pot fee_bps : Nat)
    (hpot : total_pot < U64MOD) (hfee : fee_bps ≤ 10000) :
    calculate_house_fee total_pot fee_bps = .ok (total_pot * fee_bps / 10000) ∧
    calculate_winner_payout total_pot fee_bps =
      .ok (total_pot - total_pot * fee_bps / 10000) ∧
    total_pot * fee_bps / 10000 ≤ total_pot ∧
    (total_pot - total_pot * fee_bps / 10000) + total_pot * fee_bps / 10000 ≤
      total_pot := by
  have hfle : total_pot * fee_bps / 10000 ≤ total_pot := by
    have h1 : total_pot * fee_bps ≤ total_pot * 10000 :=
      Nat.mul_le_mul_left total_pot hfee
    calc total_pot * fee_bps / 10000 ≤ total_pot * 10000 / 10000 :=
          Nat.div_le_div_right h1
      _ = total_pot := Nat.mul_div_cancel total_pot (by norm_num)
  have hnoov : total_pot * fee_bps < U128MOD := by
    have h1 : total_pot * fee_bps ≤ total_pot * 10000 :=
      Nat.mul_le_mul_left total_pot hfee
    have h2 : total_pot * 10000 < U64MOD * 10000 :=
      (Nat.mul_lt_mul_right (by norm_num)).mpr hpot
    have h3 : U64MOD * 10000 ≤ U128MOD := by norm_num [U64MOD, U128MOD]
    omega
  have hcast : total_pot * fee_bps / 10000 % U64MOD = total_pot * fee_bps / 10000 :=
    Nat.mod_eq_of_lt (by omega)
  have hmain : calculate_house_fee total_pot fee_bps =
      .ok (total_pot * fee_bps / 10000) := by
    unfold calculate_house_fee
    rw [if_neg (by omega), if_neg (by omega), hcast]
  refine ⟨hmain, ?_, hfle, by omega⟩
  unfold calculate_winner_payout
  rw [hmain]

/-- C2 (witness): 5% fee on 1 SOL, matching the unit test in utils.rs. -/
theorem calculate_house_fee_spec_witness :
    calculate_house_fee 1000000000 500 = .ok 50000000 ∧
    calculate_winner_payout 1000000000 500 = .ok 950000000 ∧
    50000000 ≤ 1000000000 ∧
    950000000 + 50000000 ≤ 1000000000 := by
  have h := calculate_house_fee_spec 1000000000 500 (by norm_num [U64MOD]) (by norm_num)
  norm_num at h ⊢
  exact h

/-! ### Data model and instruction state

The snapshot's state/errors/constants files are an older iteration; the
GameRound fields, the extra error variants and MAX_BET_LAMPORTS used by the
claim-cited instruction files are fixed by those call sites and by the
spec's data model (spec section 3). -/

/-- constants.rs: MIN_BET_LAMPORTS = 10_000_000 (0.01 SOL). -/
def MIN_BET_LAMPORTS : Nat := 10000000

/-- Modelled from the spec: the MAX_BET_LAMPORTS constant used by
create_game/place_bet is absent from the snapshot's constants.rs; the spec
gives a max-bet tunable and the GameConfig comment documents
3_000_000_000 lamports (3 SOL) as the maximum bet. -/
def MAX_BET_LAMPORTS : Nat := 3000000000

/-- constants.rs: DEFAULT_SMALL_GAME_WAITING_DURATION = 30 seconds. -/
def DEFAULT_SMALL_GAME_WAITING_DURATION : Int := 30

/-- i64::MAX, for the checked i64 addition in create_game. -/
def I64MAX : Int := 9223372036854775807

/-- Little-endian byte list of a value, k bytes. -/
def leBytes : Nat → Nat → List Nat
  | 0, _ => []
  | k + 1, n => n % 256 :: leBytes k (n / 256)

/-- u64::to_le_bytes. -/
def le8 (n : Nat) : List Nat := leBytes 8 (n % U64MOD)

/-- i64::to_le_bytes (two's-complement little-endian). -/
def le8i (t : Int) : List Nat := le8 (t % (18446744073709551616 : Int)).toNat

/-- Global game configuration (state/game_config.rs). -/
structure GameConfig where
  authority : Nat
  treasury : Nat
  house_fee_basis_points : Nat
  min_bet_lamports : Nat
  max_bet_lamports : Nat
  bets_locked : Bool
  force : List Nat
  deriving DecidableEq, Repr, Inhabited

/-- Global round counter (state/game_counter.rs). -/
structure GameCounter where
  current_round_id : Nat
  deriving DecidableEq, Repr, Inhabited

/-- Per-bet PDA record (state/bet_entry.rs). -/
structure BetEntry where
  game_round_id : Nat
  bet_index : Nat
  wallet : Nat
  bet_amount : Nat
  timestamp : Int
  payout_collected : Bool
  deriving DecidableEq, Repr, Inhabited

/-- Modelled from the spec: the GameRound account iteration with the
bet_amounts array is absent from the snapshot's state/game_round.rs (only
an older iteration is present); the field set is the per-round aggregate of
spec section 3 exactly as read and written by the claim-cited instruction
files: id, status, timing window, pot, fixed 64-slot bet-amount array with
active count, winner identity and index, randomness-request handle and
seed, and the two unclaimed settlement fields. -/
structure GameRound where
  round_id : Nat
  status : GameStatus
  start_timestamp : Int
  end_timestamp : Int
  total_pot : Nat
  winner : Nat
  winning_bet_index : Nat
  winner_prize_unclaimed : Nat
  house_fee_unclaimed : Nat
  randomness_fulfilled : Bool
  vrf_seed : List Nat
  vrf_request_pubkey : Nat
  bet_amounts : List Nat
  bet_count : Nat
  deriving DecidableEq, Repr, Inhabited

/-- GameRound::can_accept_bets: status is Idle or Waiting. -/
def GameRound.can_accept_bets (r : GameRound) : Bool :=
  r.status = GameStatus.Idle ∨ r.status = GameStatus.Waiting

/-- instructions/create_game.rs (create_game, lines 113-317): first stake
of a round.  h abstracts the keccak hash used for the force rotation;
vrfRequestKey is the address of the VRF request account the round stores;
the SOL transfer into the vault moves exactly amount lamports.  Returns the
mutated config, the new round and the first BetEntry. -/
def create_game (h : List Nat → List Nat) (config : GameConfig)
    (counter : GameCounter) (player playerLamports amount : Nat)
    (now : Int) (slot : Nat) (vrfRequestKey : Nat) :
    Except Domin8Error (GameConfig × GameRound × BetEntry) :=
  if config.bets_locked then .error .BetsLocked
  else if amount < MIN_BET_LAMPORTS then .error .BetTooSmall
  else if MAX_BET_LAMPORTS < amount then .error .BetTooLarge
  else if playerLamports < amount then .error .InsufficientFunds
  else if I64MAX < now + DEFAULT_SMALL_GAME_WAITING_DURATION then .error .ArithmeticOverflow
  else
    .ok ({ config with
            force := h (config.force ++ le8 counter.current_round_id ++
              le8i now ++ le8 slot),
            bets_locked := true },
         { round_id := counter.current_round_id
           status := .Waiting
           start_timestamp := now
           end_timestamp := now + DEFAULT_SMALL_GAME_WAITING_DURATION
           total_pot := amount
           winner := 0
           winning_bet_index := 0
           winner_prize_unclaimed := 0
           house_fee_unclaimed := 0
           randomness_fulfilled := false
           vrf_seed := config.force
           vrf_request_pubkey := vrfRequestKey
           bet_amounts := amount :: List.replicate 63 0
           bet_count := 1 },
         { game_round_id := counter.current_round_id
           bet_index := 0
           wallet := player
           bet_amount := amount
           timestamp := now
           payout_collected := false })

/-- instructions/place_bet.rs (place_bet, lines 59-157): an additional
stake in the current round.  The SOL transfer into the vault moves exactly
amount lamports; on any error the chain commits nothing. -/
def place_bet (config : GameConfig) (counter : GameCounter) (round : GameRound)
    (player playerLamports amount : Nat) (now : Int) :
    Except Domin8Error (GameRound × BetEntry) :=
  if round.round_id ≠ counter.current_round_id then .error .InvalidGameStatus
  else if config.bets_locked then .error .BetsLocked
  else if ¬ round.can_accept_bets then .error .InvalidGameStatus
  else if round.status = GameStatus.Waiting ∧ round.end_timestamp ≤ now then
    .error .BettingWindowClosed
  else if amount < MIN_BET_LAMPORTS then .error .BetTooSmall
  else if MAX_BET_LAMPORTS < amount then .error .BetTooLarge
  else if playerLamports < amount then .error .InsufficientFunds
  else if 64 ≤ round.bet_count then .error .MaxBetsReached
  else
    .ok ({ round with
            total_pot := satAdd64 round.total_pot amount
            bet_amounts := round.bet_amounts.set round.bet_count amount
            bet_count := round.bet_count + 1 },
         { game_round_id := round.round_id
           bet_index := round.bet_count
           wallet := player
           bet_amount := amount
           timestamp := now
           payout_collected := false })

/-! ### C3 and C10: pot conservation and the 64-bet capacity -/

/-- Setting slot n and taking n+1 elements appends the new element to the
old n-element prefix. -/
lemma take_set_succ (l : List Nat) : ∀ (n a : Nat), n < l.length →
    (l.set n a).take (n + 1) = l.take n ++ [a] := by
  induction l with
  | nil => intro n a h; simp at h
  | cons b t ih =>
    intro n a h
    cases n with
    | zero => simp
    | succ m =>
      have hm : m < t.length := by simpa using h
      simp only [List.set_cons_succ, List.take_succ_cons, List.cons_append,
        List.cons.injEq, true_and]
      exact ih m a hm

/-- The pot/ledger invariant maintained by the betting instructions:
total_pot is the sum of the active bet_amounts slots, the array has its
fixed 64 slots, the active count fits, and every recorded stake respects
the maximum bet. -/
def potInvariant (r : GameRound) : Prop :=
  r.total_pot = (r.bet_amounts.take r.bet_count).sum ∧
  r.bet_count ≤ 64 ∧
  r.bet_amounts.length = 64 ∧
  ∀ a ∈ r.bet_amounts.take r.bet_count, a ≤ MAX_BET_LAMPORTS

instance (r : GameRound) : Decidable (potInvariant r) := by
  unfold potInvariant
  infer_instance

/-- Arguments of one place_bet call. -/
structure BetCall where
  player : Nat
  playerLamports : Nat
  amount : Nat
  now : Int
  deriving DecidableEq, Repr, Inhabited

/-- Sequential execution of place_bet calls against a fixed config and
counter (place_bet mutates neither); any failing call aborts the run. -/
def run_place_bets (config : GameConfig) (counter : GameCounter) :
    GameRound → List BetCall → Except Domin8Error GameRound
  | r, [] => .ok r
  | r, c :: rest =>
    match place_bet config counter r c.player c.playerLamports c.amount c.now with
    | .error e => .error e
    | .ok (r2, _) => run_place_bets config counter r2 rest

/-- A bounded list of at most 64 stakes, each at most MAX_BET_LAMPORTS,
sums below 2^64, so the u64 pot addition never saturates. -/
lemma sum_take_lt_u64 (l : List Nat) (n : Nat) (hn : n ≤ 64)
    (hb : ∀ a ∈ l.take n, a ≤ MAX_BET_LAMPORTS) :
    (l.take n).sum ≤ 64 * MAX_BET_LAMPORTS := by
  have hlen : (l.take n).length ≤ 64 := by
    simp only [List.length_take]
    omega
  have := List.sum_le_card_nsmul (l.take n) MAX_BET_LAMPORTS hb
  simp only [smul_eq_mul] at this
  calc (l.take n).sum ≤ (l.take n).length * MAX_BET_LAMPORTS := this
    _ ≤ 64 * MAX_BET_LAMPORTS := Nat.mul_le_mul_right _ hlen

/-- C10 helper: the success shape of place_bet. -/
lemma place_bet_ok_iff (config : GameConfig) (counter : GameCounter)
    (round : GameRound) (player playerLamports amount : Nat) (now : Int)
    (r2 : GameRound) (e : BetEntry) :
    place_bet config counter round player playerLamports amount now = .ok (r2, e) ↔
    (round.round_id = counter.current_round_id ∧ config.bets_locked = false ∧
     round.can_accept_bets = true ∧
     ¬ (round.status = GameStatus.Waiting ∧ round.end_timestamp ≤ now) ∧
     MIN_BET_LAMPORTS ≤ amount ∧ amount ≤ MAX_BET_LAMPORTS ∧
     amount ≤ playerLamports ∧ round.bet_count < 64 ∧
     r2 = { round with
             total_pot := satAdd64 round.total_pot amount
             bet_amounts := round.bet_amounts.set round.bet_count amount
             bet_count := round.bet_count + 1 } ∧
     e = { game_round_id := round.round_id
           bet_index := round.bet_count
           wallet := player
           bet_amount := amount
           timestamp := now
           payout_collected := false }) := by
  unfold place_bet
  constructor
  · intro hsucc
    split at hsucc
    · simp at hsucc
    · split at hsucc
      · simp at hsucc
      · split at hsucc
        · simp at hsucc
        · split at hsucc
          · simp at hsucc
          · split at hsucc
            · simp at hsucc
            · split at hsucc
              · simp at hsucc
              · split at hsucc
                · simp at hsucc
                · split at hsucc
                  · simp at hsucc
                  · simp only [Except.ok.injEq, Prod.mk.injEq] at hsucc
                    refine ⟨by omega, ?_, ?_, by assumption, by omega, by omega,
                      by omega, by omega, hsucc.1.symm, hsucc.2.symm⟩
                    · simp_all
                    · simp_all
  · rintro ⟨h1, h2, h3, h4, h5, h6, h7, h8, h9, h10⟩
    rw [if_neg (by omega), if_neg (by simp [h2]), if_neg (by simp [h3]),
      if_neg h4, if_neg (by omega), if_neg (by omega), if_neg (by omega),
      if_neg (by omega), h9, h10]

/-- C3/C10 helper: the success shape of create_game. -/
lemma create_game_ok_iff (h : List Nat → List Nat) (config : GameConfig)
    (counter : GameCounter) (player playerLamports amount : Nat) (now : Int)
    (slot vrfRequestKey : Nat) (cfg2 : GameConfig) (round : GameRound)
    (entry : BetEntry) :
    create_game h config counter player playerLamports amount now slot
        vrfRequestKey = .ok (cfg2, round, entry) ↔
    (config.bets_locked = false ∧ MIN_BET_LAMPORTS ≤ amount ∧
     amount ≤ MAX_BET_LAMPORTS ∧ amount ≤ playerLamports ∧
     now + DEFAULT_SMALL_GAME_WAITING_DURATION ≤ I64MAX ∧
     cfg2 = { config with
               force := h (config.force ++ le8 counter.current_round_id ++
                 le8i now ++ le8 slot),
               bets_locked := true } ∧
     round = { round_id := counter.current_round_id
               status := .Waiting
               start_timestamp := now
               end_timestamp := now + DEFAULT_SMALL_GAME_WAITING_DURATION
               total_pot := amount
               winner := 0
               winning_bet_index := 0
               winner_prize_unclaimed := 0
               house_fee_unclaimed := 0
               randomness_fulfilled := false
               vrf_seed := config.force
               vrf_request_pubkey := vrfRequestKey
               bet_amounts := amount :: List.replicate 63 0
               bet_count := 1 } ∧
     entry = { game_round_id := counter.current_round_id
               bet_index := 0
               wallet := player
               bet_amount := amount
               timestamp := now
               payout_collected := false }) := by
  unfold create_game
  constructor
  · intro hsucc
    split at hsucc
    · simp at hsucc
    · split at hsucc
      · simp at hsucc
      · split at hsucc
        · simp at hsucc
        · split at hsucc
          · simp at hsucc
          · split at hsucc
            · simp at hsucc
            · simp only [Except.ok.injEq, Prod.mk.injEq] at hsucc
              refine ⟨by simp_all, by omega, by omega, by omega, by omega,
                hsucc.1.symm, hsucc.2.1.symm, hsucc.2.2.symm⟩
  · rintro ⟨h1, h2, h3, h4, h5, h6, h7, h8⟩
    rw [if_neg (by simp [h1]), if_neg (by omega), if_neg (by omega),
      if_neg (by omega), if_neg (by omega), h6, h7, h8]

/-- C3: pot conservation.  (1) create_game establishes total_pot = first
stake = sum of the active bet_amounts slots (with the full invariant);
(2) each successful place_bet preserves the invariant and grows the pot by
exactly the new stake; (3) hence after create_game and any sequence of
successful place_bet calls, total_pot equals the first stake plus the sum
of all accepted stake amounts, and always equals the sum of
bet_amounts[0..bet_count]. -/
theorem pot_conservation :
    (∀ (h : List Nat → List Nat) (config : GameConfig) (counter : GameCounter)
      (player playerLamports amount : Nat) (now : Int) (slot vrfRequestKey : Nat)
      (cfg2 : GameConfig) (round : GameRound) (entry : BetEntry),
      create_game h config counter player playerLamports amount now slot
          vrfRequestKey = .ok (cfg2, round, entry) →
      round.total_pot = amount ∧ potInvariant round) ∧
    (∀ (config : GameConfig) (counter : GameCounter) (round : GameRound)
      (player playerLamports amount : Nat) (now : Int)
      (r2 : GameRound) (e : BetEntry),
      potInvariant round →
      place_bet config counter round player playerLamports amount now = .ok (r2, e) →
      potInvariant r2 ∧ r2.total_pot = round.total_pot + amount) ∧
    (∀ (config : GameConfig) (counter : GameCounter) (round : GameRound)
      (calls : List BetCall) (r2 : GameRound),
      potInvariant round →
      run_place_bets config counter round calls = .ok r2 →
      potInvariant r2 ∧
      r2.total_pot = round.total_pot + (calls.map BetCall.amount).sum) := by
  have hplace : ∀ (config : GameConfig) (counter : GameCounter) (round : GameRound)
      (player playerLamports amount : Nat) (now : Int)
      (r2 : GameRound) (e : BetEntry),
      potInvariant round →
      place_bet config counter round player playerLamports amount now = .ok (r2, e) →
      potInvariant r2 ∧ r2.total_pot = round.total_pot + amount := by
    intro config counter round player playerLamports amount now r2 e hinv hsucc
    obtain ⟨hpot, hcnt, hlen, hbound⟩ := hinv
    obtain ⟨_, _, _, _, _, hmax, _, hlt, hr2, _⟩ :=
      (place_bet_ok_iff config counter round player playerLamports amount now r2 e).mp hsucc
    have hsum : (round.bet_amounts.take round.bet_count).sum ≤ 64 * MAX_BET_LAMPORTS :=
      sum_take_lt_u64 round.bet_amounts round.bet_count hcnt hbound
    have hnosat : satAdd64 round.total_pot amount = round.total_pot + amount := by
      have hlt2 : round.total_pot + amount < U64MOD := by
        rw [hpot]
        simp only [MAX_BET_LAMPORTS] at hsum hmax
        simp only [U64MOD]
        omega
      simp only [satAdd64]
      omega
    have htake : ((round.bet_amounts.set round.bet_count amount).take
        (round.bet_count + 1)) = round.bet_amounts.take round.bet_count ++ [amount] :=
      take_set_succ round.bet_amounts round.bet_count amount (by omega)
    subst hr2
    refine ⟨⟨?_, by simp; omega, by simpa using hlen, ?_⟩, by simpa using hnosat⟩
    · simp only [htake, List.sum_append, List.sum_cons, List.sum_nil]
      omega
    · intro a ha
      simp only [htake, List.mem_append, List.mem_singleton] at ha
      rcases ha with ha | ha
      · exact hbound a ha
      · omega
  refine ⟨?_, hplace, ?_⟩
  · intro h config counter player playerLamports amount now slot vrfRequestKey
      cfg2 round entry hsucc
    obtain ⟨_, _, hmax, _, _, _, hround, _⟩ :=
      (create_game_ok_iff h config counter player playerLamports amount now slot
        vrfRequestKey cfg2 round entry).mp hsucc
    subst hround
    refine ⟨rfl, rfl, by simp, by simp, ?_⟩
    intro a ha
    simp only [List.take_succ_cons, List.take_zero, List.mem_singleton] at ha
    omega
  · intro config counter round calls
    induction calls generalizing round with
    | nil =>
      intro r2 hinv hrun
      simp only [run_place_bets, Except.ok.injEq] at hrun
      subst hrun
      simpa using hinv
    | cons c rest ih =>
      intro r2 hinv hrun
      simp only [run_place_bets] at hrun
      split at hrun
      · simp at hrun
      · rename_i rpair heq
        obtain ⟨hinv2, hpot2⟩ := hplace config counter round c.player
          c.playerLamports c.amount c.now _ _ hinv heq
        obtain ⟨hinv3, hpot3⟩ := ih _ _ hinv2 hrun
        refine ⟨hinv3, ?_⟩
        rw [hpot3, hpot2]
        simp [List.sum_cons]
        omega

instance {ε α : Type} [DecidableEq ε] [DecidableEq α] : DecidableEq (Except ε α) :=
  fun x y =>
    match x, y with
    | .error a, .error b =>
      if h : a = b then isTrue (by rw [h])
      else isFalse (by intro hc; injection hc; contradiction)
    | .error _, .ok _ => isFalse (by intro hc; injection hc)
    | .ok _, .error _ => isFalse (by intro hc; injection hc)
    | .ok a, .ok b =>
      if h : a = b then isTrue (by rw [h])
      else isFalse (by intro hc; injection hc; contradiction)

/-- A concrete configuration with betting unlocked. -/
def exConfig : GameConfig :=
  { authority := 1, treasury := 2, house_fee_basis_points := 500,
    min_bet_lamports := MIN_BET_LAMPORTS, max_bet_lamports := MAX_BET_LAMPORTS,
    bets_locked := false, force := List.replicate 32 0 }

/-- A concrete counter at round 7. -/
def exCounter : GameCounter := { current_round_id := 7 }

/-- A concrete Waiting round with one recorded bet of 0.01 SOL. -/
def exRound : GameRound :=
  { round_id := 7, status := .Waiting, start_timestamp := 0, end_timestamp := 30,
    total_pot := 10000000, winner := 0, winning_bet_index := 0,
    winner_prize_unclaimed := 0, house_fee_unclaimed := 0,
    randomness_fulfilled := false, vrf_seed := List.replicate 32 0,
    vrf_request_pubkey := 42, bet_amounts := 10000000 :: List.replicate 63 0,
    bet_count := 1 }

/-- Outcome of a concrete create_game call. -/
def exCreateOut : GameConfig × GameRound × BetEntry :=
  (create_game id exConfig exCounter 5 20000000 10000000 0 3 42).toOption.getD default

/-- Outcome of a concrete two-bet run after exRound. -/
def exBetCalls : List BetCall :=
  [{ player := 6, playerLamports := 50000000, amount := 20000000, now := 1 },
   { player := 5, playerLamports := 50000000, amount := 15000000, now := 2 }]

/-- Outcome of running exBetCalls. -/
def exRunOut : GameRound :=
  (run_place_bets exConfig exCounter exRound exBetCalls).toOption.getD default

/-- C3 (witness): a concrete create_game and a concrete two-bet run, with
the invariant and pot sums evaluated. -/
theorem pot_conservation_witness :
    create_game id exConfig exCounter 5 20000000 10000000 0 3 42 =
      .ok (exCreateOut.1, exCreateOut.2.1, exCreateOut.2.2) ∧
    exCreateOut.2.1.total_pot = 10000000 ∧ potInvariant exCreateOut.2.1 ∧
    potInvariant exRound ∧
    run_place_bets exConfig exCounter exRound exBetCalls = .ok exRunOut ∧
    potInvariant exRunOut ∧
    exRunOut.total_pot = exRound.total_pot + (exBetCalls.map BetCall.amount).sum := by
  have hc : create_game id exConfig exCounter 5 20000000 10000000 0 3 42 =
      .ok (exCreateOut.1, exCreateOut.2.1, exCreateOut.2.2) := by decide
  have hinv : potInvariant exRound := by decide
  have hr : run_place_bets exConfig exCounter exRound exBetCalls = .ok exRunOut := by
    decide
  obtain ⟨h1, h2⟩ := pot_conservation.1 id exConfig exCounter 5 20000000 10000000
    0 3 42 exCreateOut.1 exCreateOut.2.1 exCreateOut.2.2 hc
  obtain ⟨h3, h4⟩ := pot_conservation.2.2 exConfig exCounter exRound exBetCalls
    exRunOut hinv hr
  exact ⟨hc, h1, h2, hinv, hr, h3, h4⟩

/-- C10: fixed 64-bet capacity.  (a) place_bet on a round whose bet_count
is already 64 fails with MaxBetsReached even when every other precondition
holds (on error the chain commits nothing, so the round is unchanged);
(b) every accepted bet is written at index bet_count < 64 and increments
bet_count to at most 64; (c) create_game starts the round with
bet_count = 1 <= 64. -/
theorem max_bets_capacity :
    (∀ (config : GameConfig) (counter : GameCounter) (round : GameRound)
      (player playerLamports amount : Nat) (now : Int),
      round.bet_count = 64 →
      round.round_id = counter.current_round_id → config.bets_locked = false →
      round.can_accept_bets = true →
      ¬ (round.status = GameStatus.Waiting ∧ round.end_timestamp ≤ now) →
      MIN_BET_LAMPORTS ≤ amount → amount ≤ MAX_BET_LAMPORTS →
      amount ≤ playerLamports →
      place_bet config counter round player playerLamports amount now =
        .error .MaxBetsReached) ∧
    (∀ (config : GameConfig) (counter : GameCounter) (round : GameRound)
      (player playerLamports amount : Nat) (now : Int) (r2 : GameRound)
      (e : BetEntry),
      place_bet config counter round player playerLamports amount now =
        .ok (r2, e) →
      round.bet_count < 64 ∧ e.bet_index = round.bet_count ∧
      r2.bet_amounts = round.bet_amounts.set round.bet_count amount ∧
      r2.bet_count = round.bet_count + 1 ∧ r2.bet_count ≤ 64) ∧
    (∀ (h : List Nat → List Nat) (config : GameConfig) (counter : GameCounter)
      (player playerLamports amount : Nat) (now : Int) (slot vrfRequestKey : Nat)
      (cfg2 : GameConfig) (round : GameRound) (entry : BetEntry),
      create_game h config counter player playerLamports amount now slot
          vrfRequestKey = .ok (cfg2, round, entry) →
      round.bet_count = 1 ∧ round.bet_count ≤ 64) := by
  refine ⟨?_, ?_, ?_⟩
  · intro config counter round player playerLamports amount now hfull hid hlock
      hacc hwin hmin hmax hfund
    unfold place_bet
    rw [if_neg (by omega), if_neg (by simp [hlock]), if_neg (by simp [hacc]),
      if_neg hwin, if_neg (by omega), if_neg (by omega), if_neg (by omega),
      if_pos (by omega)]
  · intro config counter round player playerLamports amount now r2 e hsucc
    obtain ⟨_, _, _, _, _, _, _, hlt, hr2, he⟩ :=
      (place_bet_ok_iff config counter round player playerLamports amount now
        r2 e).mp hsucc
    subst hr2
    subst he
    exact ⟨hlt, rfl, rfl, rfl, by simp; omega⟩
  · intro h config counter player playerLamports amount now slot vrfRequestKey
      cfg2 round entry hsucc
    obtain ⟨_, _, _, _, _, _, hround, _⟩ :=
      (create_game_ok_iff h config counter player playerLamports amount now slot
        vrfRequestKey cfg2 round entry).mp hsucc
    subst hround
    exact ⟨rfl, by simp⟩

/-- A concrete round whose bet array is full (64 bets of 0.01 SOL). -/
def exFullRound : GameRound :=
  { exRound with
    bet_amounts := List.replicate 64 10000000
    bet_count := 64
    total_pot := 640000000 }

/-- Outcome of one concrete successful place_bet on exRound. -/
def exPlaceOut : GameRound × BetEntry :=
  (place_bet exConfig exCounter exRound 6 50000000 20000000 1).toOption.getD default

/-- C10 (witness): the full round rejects a 65th bet with MaxBetsReached;
a concrete accepted bet writes index 1 < 64; a concrete create_game starts
at bet_count 1. -/
theorem max_bets_capacity_witness :
    place_bet exConfig exCounter exFullRound 6 50000000 20000000 1 =
      .error .MaxBetsReached ∧
    (exFullRound.bet_count = 64 ∧ exConfig.bets_locked = false) ∧
    (place_bet exConfig exCounter exRound 6 50000000 20000000 1 =
      .ok (exPlaceOut.1, exPlaceOut.2) ∧
     exPlaceOut.2.bet_index = exRound.bet_count ∧ exRound.bet_count < 64 ∧
     exPlaceOut.1.bet_count = exRound.bet_count + 1 ∧ exPlaceOut.1.bet_count ≤ 64) ∧
    (create_game id exConfig exCounter 5 20000000 10000000 0 3 42 =
      .ok (exCreateOut.1, exCreateOut.2.1, exCreateOut.2.2) ∧
     exCreateOut.2.1.bet_count = 1) := by
  have hfull : place_bet exConfig exCounter exFullRound 6 50000000 20000000 1 =
      .error .MaxBetsReached :=
    max_bets_capacity.1 exConfig exCounter exFullRound 6 50000000 20000000 1
      (by decide) (by decide) (by decide) (by decide) (by decide) (by decide)
      (by decide) (by decide)
  have hok : place_bet exConfig exCounter exRound 6 50000000 20000000 1 =
      .ok (exPlaceOut.1, exPlaceOut.2) := by decide
  obtain ⟨hb1, hb2, _, hb4, hb5⟩ := max_bets_capacity.2.1 exConfig exCounter
    exRound 6 50000000 20000000 1 exPlaceOut.1 exPlaceOut.2 hok
  have hcg : create_game id exConfig exCounter 5 20000000 10000000 0 3 42 =
      .ok (exCreateOut.1, exCreateOut.2.1, exCreateOut.2.2) := by decide
  obtain ⟨hc1, _⟩ := max_bets_capacity.2.2 id exConfig exCounter 5 20000000
    10000000 0 3 42 exCreateOut.1 exCreateOut.2.1 exCreateOut.2.2 hcg
  exact ⟨hfull, ⟨by decide, by decide⟩, ⟨hok, hb2, hb1, hb4, hb5⟩, ⟨hcg, hc1⟩⟩

/-! ### C5: close_betting_window and the single-participant refund -/

/-- Order-preserving deduplication, as the Vec-contains-push loop of
close_betting_window (and GameUtils::count_unique_users) computes it. -/
def uniqueKeys (l : List Nat) : List Nat :=
  l.foldl (fun acc w => if w ∈ acc then acc else acc ++ [w]) []

/-- Committed state of a successful close_betting_window: the mutated
config/counter/round, the vault balance, and the lamports actually
auto-transferred to the single bettor (0 in the competitive path or when
the automatic transfer failed). -/
structure CloseResult where
  config : GameConfig
  counter : GameCounter
  round : GameRound
  vaultLamports : Nat
  autoRefundPaid : Nat
  deriving DecidableEq, Repr, Inhabited

/-- Committed state of the single-participant branch of
close_betting_window: round Finished with the lone wallet as winner, force
rotated, counter incremented, lock released, and the refund either
transferred (vault debited) or parked in winner_prize_unclaimed. -/
def singleCloseResult (h : List Nat → List Nat) (config : GameConfig)
    (counter : GameCounter) (round : GameRound) (vaultLamports : Nat)
    (transferOk : Bool) (now : Int) (slot : Nat) (w : Nat) : CloseResult :=
  { config := { config with
      force := h (le8 round.round_id ++ le8i now ++ le8 slot ++ config.force)
      bets_locked := false }
    counter := { current_round_id := counter.current_round_id + 1 }
    round := { round with
      status := .Finished
      winning_bet_index := 0
      winner := w
      winner_prize_unclaimed := if transferOk then 0 else round.total_pot }
    vaultLamports :=
      if transferOk then vaultLamports - round.total_pot else vaultLamports
    autoRefundPaid := if transferOk then round.total_pot else 0 }

/-- instructions/close_betting_window.rs (close_betting_window, lines
52-254).  betEntryAccounts are the BetEntry PDAs passed first in
remaining_accounts (at least bet_count of them), walletAccounts the
accounts passed after them; transferOk is the outcome of the attempted
automatic refund CPI (which the source tolerates failing; in the
zero-refund branch the source marks the transfer successful without a
CPI, which with total_pot = 0 coincides with transferOk = true).  In the
single-participant branch the force is rotated, the counter incremented
and the lock released; in the competitive branch the lock stays set and
the round moves to AwaitingWinnerRandomness. -/
def close_betting_window (h : List Nat → List Nat) (config : GameConfig)
    (counter : GameCounter) (round : GameRound) (crank : Nat)
    (betEntryAccounts : List BetEntry) (walletAccounts : List Nat)
    (vaultLamports : Nat) (transferOk : Bool) (now : Int) (slot : Nat) :
    Except Domin8Error CloseResult :=
  if crank ≠ config.authority then .error .Unauthorized
  else if round.status ≠ GameStatus.Waiting then .error .InvalidGameStatus
  else if now < round.end_timestamp then .error .BettingWindowStillOpen
  else if betEntryAccounts.length < round.bet_count then .error .InvalidBetEntry
  else if (uniqueKeys ((betEntryAccounts.take round.bet_count).map
      BetEntry.wallet)).length = 1 then
    if 0 < round.total_pot then
      if walletAccounts.length = 0 then .error .InvalidBetEntry
      else if walletAccounts.getD 0 0 ≠
          (uniqueKeys ((betEntryAccounts.take round.bet_count).map
            BetEntry.wallet)).getD 0 0 then .error .Unauthorized
      else if vaultLamports < round.total_pot then .error .InsufficientFunds
      else if U64MOD ≤ counter.current_round_id + 1 then .error .ArithmeticOverflow
      else
        .ok (singleCloseResult h config counter round vaultLamports transferOk
          now slot ((uniqueKeys ((betEntryAccounts.take round.bet_count).map
            BetEntry.wallet)).getD 0 0))
    else if U64MOD ≤ counter.current_round_id + 1 then .error .ArithmeticOverflow
    else
      .ok (singleCloseResult h config counter round vaultLamports true
        now slot ((uniqueKeys ((betEntryAccounts.take round.bet_count).map
          BetEntry.wallet)).getD 0 0))
  else if (uniqueKeys ((betEntryAccounts.take round.bet_count).map
      BetEntry.wallet)).length < 2 then .error .InvalidGameStatus
  else if round.vrf_request_pubkey = 0 then .error .InvalidVrfAccount
  else
    .ok { config := { config with bets_locked := true }
          counter := counter
          round := { round with status := .AwaitingWinnerRandomness }
          vaultLamports := vaultLamports
          autoRefundPaid := 0 }

set_option maxHeartbeats 4000000 in
/-- C5: when exactly one distinct wallet placed all the bets, a successful
close_betting_window at or after end_timestamp finishes the round
immediately, names that wallet as winner, makes exactly total_pot (= the
sum of that bettor's stakes, under the pot invariant) available to it
(paid automatically, or recorded in winner_prize_unclaimed when the
transfer fails), moves no lamports to the treasury and leaves
house_fee_unclaimed untouched (zero fee), and clears the global betting
lock. -/
theorem single_participant_refund (h : List Nat → List Nat)
    (config : GameConfig) (counter : GameCounter) (round : GameRound)
    (crank : Nat) (betEntryAccounts : List BetEntry) (walletAccounts : List Nat)
    (vaultLamports : Nat) (transferOk : Bool) (now : Int) (slot : Nat)
    (res : CloseResult)
    (huniq : (uniqueKeys ((betEntryAccounts.take round.bet_count).map
      BetEntry.wallet)).length = 1)
    (hpot : round.total_pot =
      ((betEntryAccounts.take round.bet_count).map BetEntry.bet_amount).sum)
    (hsucc : close_betting_window h config counter round crank betEntryAccounts
      walletAccounts vaultLamports transferOk now slot = .ok res) :
    round.end_timestamp ≤ now ∧
    res.round.status = .Finished ∧
    res.round.winner = (uniqueKeys ((betEntryAccounts.take round.bet_count).map
      BetEntry.wallet)).getD 0 0 ∧
    res.autoRefundPaid + res.round.winner_prize_unclaimed =
      ((betEntryAccounts.take round.bet_count).map BetEntry.bet_amount).sum ∧
    res.round.house_fee_unclaimed = round.house_fee_unclaimed ∧
    res.vaultLamports = vaultLamports - res.autoRefundPaid ∧
    res.config.bets_locked = false ∧
    res.counter.current_round_id = counter.current_round_id + 1 := by
  unfold close_betting_window at hsucc
  split_ifs at hsucc
  all_goals simp only [Except.ok.injEq] at hsucc
  all_goals subst hsucc
  all_goals simp only [List.map_take] at hpot
  all_goals cases transferOk
  all_goals refine ⟨by omega, by simp [singleCloseResult],
    by simp [singleCloseResult], by simp [singleCloseResult] <;> omega,
    by simp [singleCloseResult], by simp [singleCloseResult],
    by simp [singleCloseResult], by simp [singleCloseResult]⟩

/-- The single BetEntry of exRound (one bettor, wallet 6). -/
def exSingleBetEntries : List BetEntry :=
  [{ game_round_id := 7, bet_index := 0, wallet := 6, bet_amount := 10000000,
     timestamp := 0, payout_collected := false }]

/-- Outcome of a concrete single-participant window close. -/
def exCloseOut : CloseResult :=
  (close_betting_window id exConfig exCounter exRound 1 exSingleBetEntries
    [6] 100000000 true 30 3).toOption.getD default

/-- C5 (witness): closing the window of a one-bettor round at its
end_timestamp refunds the full 0.01 SOL pot to wallet 6, charges no fee
and unlocks betting. -/
theorem single_participant_refund_witness :
    (uniqueKeys ((exSingleBetEntries.take exRound.bet_count).map
      BetEntry.wallet)).length = 1 ∧
    exRound.total_pot = ((exSingleBetEntries.take exRound.bet_count).map
      BetEntry.bet_amount).sum ∧
    close_betting_window id exConfig exCounter exRound 1 exSingleBetEntries
      [6] 100000000 true 30 3 = .ok exCloseOut ∧
    exCloseOut.round.status = .Finished ∧
    exCloseOut.round.winner = 6 ∧
    exCloseOut.autoRefundPaid + exCloseOut.round.winner_prize_unclaimed =
      ((exSingleBetEntries.take exRound.bet_count).map BetEntry.bet_amount).sum ∧
    exCloseOut.config.bets_locked = false := by
  have h1 : (uniqueKeys ((exSingleBetEntries.take exRound.bet_count).map
      BetEntry.wallet)).length = 1 := by decide
  have h2 : exRound.total_pot = ((exSingleBetEntries.take exRound.bet_count).map
      BetEntry.bet_amount).sum := by decide
  have hs : close_betting_window id exConfig exCounter exRound 1
      exSingleBetEntries [6] 100000000 true 30 3 = .ok exCloseOut := by decide
  have hpost := single_participant_refund id exConfig exCounter exRound 1
    exSingleBetEntries [6] 100000000 true 30 3 exCloseOut h1 h2 hs
  exact ⟨h1, h2, hs, hpost.2.1, by decide, hpost.2.2.2.1,
    hpost.2.2.2.2.2.2.1⟩

/-! ### C4 and C9: settlement (select_winner_and_payout) -/

/-- The accounts a settle call reads and writes. -/
structure SettleState where
  counter : GameCounter
  round : GameRound
  config : GameConfig
  vaultLamports : Nat
  deriving DecidableEq, Repr, Inhabited

/-- Committed outcome of a successful settle: the mutated accounts plus
the lamports actually moved to the winner and the treasury and the
randomness that was consumed. -/
structure SettleResult where
  state : SettleState
  winnerPaid : Nat
  treasuryPaid : Nat
  randomnessUsed : Nat
  deriving DecidableEq, Repr, Inhabited

/-- The committed state of the success path of select_winner_and_payout
(steps 4-9 of the source): each of the two transfers is attempted
independently; a failed transfer parks its amount in the corresponding
unclaimed field instead of aborting; then status becomes Finished, the
counter increments, the force is rotated from
keccak(randomness_le ++ slot_le ++ unix_timestamp_le) and the lock is
released. -/
def settleOkResult (h : List Nat → List Nat) (s : SettleState)
    (remaining : List Nat) (winnerTransferOk houseTransferOk : Bool)
    (now : Int) (slot : Nat) (randomness widx house_fee : Nat) : SettleResult :=
  { state :=
      { counter := { current_round_id := s.counter.current_round_id + 1 }
        round := { s.round with
          status := .Finished
          winner := remaining.getD widx 0
          winning_bet_index := widx
          winner_prize_unclaimed :=
            if 0 < s.round.total_pot - house_fee ∧ ¬ winnerTransferOk then
              s.round.total_pot - house_fee
            else 0
          house_fee_unclaimed :=
            if 0 < house_fee ∧ ¬ (houseTransferOk ∧ house_fee ≤
                s.vaultLamports - (if 0 < s.round.total_pot - house_fee ∧
                  winnerTransferOk then s.round.total_pot - house_fee else 0)) then
              house_fee
            else 0 }
        config := { s.config with
          force := h (le8 randomness ++ le8 slot ++ le8i now)
          bets_locked := false }
        vaultLamports :=
          (s.vaultLamports - (if 0 < s.round.total_pot - house_fee ∧
            winnerTransferOk then s.round.total_pot - house_fee else 0)) -
          (if 0 < house_fee ∧ houseTransferOk ∧ house_fee ≤
              s.vaultLamports - (if 0 < s.round.total_pot - house_fee ∧
                winnerTransferOk then s.round.total_pot - house_fee else 0) then
            house_fee
          else 0) }
    winnerPaid :=
      if 0 < s.round.total_pot - house_fee ∧ winnerTransferOk then
        s.round.total_pot - house_fee
      else 0
    treasuryPaid :=
      if 0 < house_fee ∧ houseTransferOk ∧ house_fee ≤
          s.vaultLamports - (if 0 < s.round.total_pot - house_fee ∧
            winnerTransferOk then s.round.total_pot - house_fee else 0) then
        house_fee
      else 0
    randomnessUsed := randomness }

/-- instructions/select_winner_and_payout.rs (select_winner_and_payout,
lines 61-296, and read_orao_randomness, lines 298-313).  vrfRandomness is
the fulfilled u64 of the stored VRF request (none while the request is
pending — read_orao_randomness then fails with RandomnessNotFulfilled);
remaining are the player wallet accounts passed by the backend;
winnerTransferOk/houseTransferOk are the outcomes of the two tolerated
transfer CPIs (a house-fee CPI against an underfunded vault fails).  Any
error commits nothing on the chain. -/
def select_winner_and_payout (h : List Nat → List Nat) (s : SettleState)
    (crank vrfKey : Nat) (vrfRandomness : Option Nat) (treasuryKey : Nat)
    (remaining : List Nat) (winnerTransferOk houseTransferOk : Bool)
    (now : Int) (slot : Nat) : Except Domin8Error SettleResult :=
  if crank ≠ s.config.authority then .error .Unauthorized
  else if treasuryKey ≠ s.config.treasury then .error .InvalidTreasury
  else if s.round.status ≠ GameStatus.AwaitingWinnerRandomness then
    .error .InvalidGameStatus
  else if vrfKey ≠ s.round.vrf_request_pubkey then .error .InvalidVrfAccount
  else
    match vrfRandomness with
    | none => .error .RandomnessNotFulfilled
    | some randomness =>
      if s.round.bet_count < 2 then .error .InvalidGameStatus
      else
        match select_weighted_winner s.round.bet_amounts s.round.bet_count
            randomness with
        | .error e => .error e
        | .ok widx =>
          if remaining.length < s.round.bet_count then .error .InvalidBetEntry
          else
            match calculate_house_fee s.round.total_pot
                s.config.house_fee_basis_points with
            | .error e => .error e
            | .ok house_fee =>
              if s.round.total_pot = 0 then .error .InvalidBetAmount
              else if 0 < s.round.total_pot - house_fee ∧
                  s.vaultLamports < s.round.total_pot - house_fee then
                .error .InsufficientFunds
              else if U64MOD ≤ s.counter.current_round_id + 1 then
                .error .ArithmeticOverflow
              else
                .ok (settleOkResult h s remaining winnerTransferOk
                  houseTransferOk now slot randomness widx house_fee)

/-- A concrete round awaiting winner randomness with two bets. -/
def exAwaitRound : GameRound :=
  { exRound with
    status := .AwaitingWinnerRandomness
    bet_amounts := [10000000, 10000000] ++ List.replicate 62 0
    bet_count := 2
    total_pot := 20000000 }

/-- A concrete locked configuration (resolution in progress). -/
def exLockedConfig : GameConfig := { exConfig with bets_locked := true }

/-- A concrete settle state. -/
def exSettleState : SettleState :=
  { counter := exCounter, round := exAwaitRound, config := exLockedConfig,
    vaultLamports := 100000000 }

/-- C9: a settle call in AwaitingWinnerRandomness whose stored randomness
request is not yet fulfilled fails with the distinct retryable
RandomnessNotFulfilled error; the result is that error (and nothing else),
so no state is produced — on the chain a failed instruction commits none
of its writes, leaving round status, winner, pot, counter, seed and lock
flag unchanged. -/
theorem settle_not_fulfilled (h : List Nat → List Nat) (s : SettleState)
    (crank vrfKey treasuryKey : Nat) (remaining : List Nat)
    (winnerTransferOk houseTransferOk : Bool) (now : Int) (slot : Nat)
    (hst : s.round.status = GameStatus.AwaitingWinnerRandomness)
    (hcr : crank = s.config.authority)
    (htr : treasuryKey = s.config.treasury)
    (hvk : vrfKey = s.round.vrf_request_pubkey) :
    select_winner_and_payout h s crank vrfKey none treasuryKey remaining
      winnerTransferOk houseTransferOk now slot =
      .error .RandomnessNotFulfilled := by
  unfold select_winner_and_payout
  rw [if_neg (by omega), if_neg (by omega), if_neg (by simp [hst]),
    if_neg (by omega)]

/-- C9 (witness): a concrete pending settle. -/
theorem settle_not_fulfilled_witness :
    (exSettleState.round.status = GameStatus.AwaitingWinnerRandomness ∧
     (1 : Nat) = exSettleState.config.authority ∧
     (2 : Nat) = exSettleState.config.treasury ∧
     (42 : Nat) = exSettleState.round.vrf_request_pubkey) ∧
    select_winner_and_payout id exSettleState 1 42 none 2 [11, 12] true true
      5 3 = .error .RandomnessNotFulfilled :=
  ⟨⟨by decide, by decide, by decide, by decide⟩,
   settle_not_fulfilled id exSettleState 1 42 2 [11, 12] true true 5 3
     (by decide) (by decide) (by decide) (by decide)⟩

/-- A settle state identical to exSettleState except for the round id
(8 instead of 7). -/
def exSettleStateR8 : SettleState :=
  { exSettleState with round := { exAwaitRound with round_id := 8 } }

/-- C4 (counterexample): the new entropy seed is NOT derived from the
consumed randomness plus the round id plus the current time.  With the
hash abstracted as the identity on its input bytes: (i) two settles that
agree on randomness (9), round id (7) and unix time (5) but differ in the
slot produce different seeds, so the seed is not a function of those
three; and (ii) two settles that differ only in the round id (7 vs 8)
produce the same seed, because the hashed bytes are
randomness_le ++ slot_le ++ unix_timestamp_le and never include the
round id. -/
theorem settle_force_rotation_cex :
    ((select_winner_and_payout id exSettleState 1 42 (some 9) 2 [11, 12]
        true true 5 3).toOption.map (fun res => res.state.config.force) ≠
      (select_winner_and_payout id exSettleState 1 42 (some 9) 2 [11, 12]
        true true 5 4).toOption.map (fun res => res.state.config.force)) ∧
    ((select_winner_and_payout id exSettleState 1 42 (some 9) 2 [11, 12]
        true true 5 3).toOption.map (fun res => res.state.config.force) =
      (select_winner_and_payout id exSettleStateR8 1 42 (some 9) 2 [11, 12]
        true true 5 3).toOption.map (fun res => res.state.config.force)) := by
  exact ⟨by decide, by decide⟩

/-- C4 (amended): on a successful settle from AwaitingWinnerRandomness
with fulfilled randomness r, the round's status becomes Finished, the
global bets_locked flag is cleared, the counter increments by exactly one,
and the Config entropy seed is replaced by the keccak hash (abstracted as
h) of the consumed randomness bytes plus the current slot bytes plus the
current unix-timestamp bytes — the round id is not an input of the
derivation. -/
theorem settle_postconditions (h : List Nat → List Nat) (s : SettleState)
    (crank vrfKey r treasuryKey : Nat) (remaining : List Nat)
    (winnerTransferOk houseTransferOk : Bool) (now : Int) (slot : Nat)
    (res : SettleResult)
    (hsucc : select_winner_and_payout h s crank vrfKey (some r) treasuryKey
      remaining winnerTransferOk houseTransferOk now slot = .ok res) :
    res.state.round.status = .Finished ∧
    res.state.config.bets_locked = false ∧
    res.state.counter.current_round_id = s.counter.current_round_id + 1 ∧
    res.state.config.force = h (le8 r ++ le8 slot ++ le8i now) ∧
    res.randomnessUsed = r := by
  unfold select_winner_and_payout at hsucc
  repeat' split at hsucc
  all_goals try exact Except.noConfusion hsucc
  all_goals simp only [Except.ok.injEq] at hsucc
  all_goals subst hsucc
  all_goals injections
  all_goals subst_vars
  all_goals exact ⟨rfl, rfl, rfl, rfl, rfl⟩

/-- Outcome of a concrete successful settle. -/
def exSettleOut : SettleResult :=
  (select_winner_and_payout id exSettleState 1 42 (some 9) 2 [11, 12] true
    true 5 3).toOption.getD default

/-- C4 (witness): the concrete settle above succeeds and exhibits every
postcondition of the amended claim. -/
theorem settle_postconditions_witness :
    select_winner_and_payout id exSettleState 1 42 (some 9) 2 [11, 12] true
      true 5 3 = .ok exSettleOut ∧
    exSettleOut.state.round.status = .Finished ∧
    exSettleOut.state.config.bets_locked = false ∧
    exSettleOut.state.counter.current_round_id =
      exSettleState.counter.current_round_id + 1 ∧
    exSettleOut.state.config.force = id (le8 9 ++ le8 3 ++ le8i 5) ∧
    exSettleOut.randomnessUsed = 9 := by
  have hs : select_winner_and_payout id exSettleState 1 42 (some 9) 2 [11, 12]
      true true 5 3 = .ok exSettleOut := by decide
  have hpost := settle_postconditions id exSettleState 1 42 9 2 [11, 12] true
    true 5 3 exSettleOut hs
  exact ⟨hs, hpost.1, hpost.2.1, hpost.2.2.1, hpost.2.2.2.1, hpost.2.2.2.2⟩

/-! ### C6: cleanup gating -/

/-- instructions/cleanup_old_game.rs (cleanup_old_game, lines 52-128):
close a finished past round's storage.  Age is measured from the round's
start_timestamp; THIRTY_DAYS_SECONDS = 2_592_000, ONE_DAY_SECONDS =
86_400.  Only winner_prize_unclaimed is consulted for the long retention
gate. -/
def cleanup_old_game (config : GameConfig) (counter : GameCounter)
    (round : GameRound) (crank round_id : Nat) (now : Int) :
    Except Domin8Error Unit :=
  if crank ≠ config.authority then .error .Unauthorized
  else if ¬ round_id < counter.current_round_id then
    .error .CannotCleanupActiveGame
  else if round.status ≠ GameStatus.Finished then
    .error .CannotCleanupActiveGame
  else if 0 < round.winner_prize_unclaimed then
    if now - round.start_timestamp < 2592000 then .error .GameTooRecentToCleanup
    else .ok ()
  else if now - round.start_timestamp < 86400 then .error .GameTooRecentToCleanup
  else .ok ()

/-- A finished past round whose house fee is still unclaimed but whose
winner prize is settled. -/
def exFeeUnclaimedRound : GameRound :=
  { exRound with
    round_id := 6
    status := .Finished
    winner := 9
    winner_prize_unclaimed := 0
    house_fee_unclaimed := 5 }

/-- C6 (counterexample): the claim says cleanup is rejected before the
long retention period whenever EITHER unclaimed field is nonzero.  But the
source checks only winner_prize_unclaimed: this Finished past round has
house_fee_unclaimed = 5 and age two days (between the 24-hour and 30-day
thresholds), and cleanup succeeds. -/
theorem cleanup_house_fee_cex :
    exFeeUnclaimedRound.house_fee_unclaimed = 5 ∧
    exFeeUnclaimedRound.winner_prize_unclaimed = 0 ∧
    exFeeUnclaimedRound.status = .Finished ∧
    exFeeUnclaimedRound.round_id < exCounter.current_round_id ∧
    (172800 : Int) - exFeeUnclaimedRound.start_timestamp < 2592000 ∧
    (86400 : Int) ≤ (172800 : Int) - exFeeUnclaimedRound.start_timestamp ∧
    cleanup_old_game exConfig exCounter exFeeUnclaimedRound 1 6 172800 =
      .ok () := by
  decide

/-- C6 (amended): cleanup by the authority fails whenever the round id is
not strictly below the current round id (in particular when it equals it)
or the round is not Finished; for a Finished past round, if the winner
prize is unclaimed (winner_prize_unclaimed > 0), cleanup is rejected until
30 days from round start and accepted after; otherwise — including when
only the house fee is unclaimed — cleanup is accepted once 24 hours have
elapsed.  Stated as an exact success characterisation. -/
theorem cleanup_gating (config : GameConfig) (counter : GameCounter)
    (round : GameRound) (crank round_id : Nat) (now : Int) :
    cleanup_old_game config counter round crank round_id now = .ok () ↔
    (crank = config.authority ∧ round_id < counter.current_round_id ∧
     round.status = GameStatus.Finished ∧
     (if 0 < round.winner_prize_unclaimed then
        2592000 ≤ now - round.start_timestamp
      else 86400 ≤ now - round.start_timestamp)) := by
  unfold cleanup_old_game
  split_ifs <;> simp_all

/-! ### C7: manual claims succeed exactly once -/

/-- instructions/claim_winner_prize.rs (claim_winner_prize, lines 44-99):
the stored winner pulls an unclaimed prize; returns the mutated round, the
new vault balance, and the lamports transferred. -/
def claim_winner_prize (round : GameRound) (vaultLamports winner : Nat) :
    Except Domin8Error (GameRound × Nat × Nat) :=
  if winner ≠ round.winner then .error .Unauthorized
  else if round.status ≠ GameStatus.Finished then .error .InvalidGameStatus
  else if round.winner_prize_unclaimed = 0 then .error .AlreadyClaimed
  else if vaultLamports < round.winner_prize_unclaimed then
    .error .InsufficientFunds
  else
    .ok ({ round with winner_prize_unclaimed := 0 },
         vaultLamports - round.winner_prize_unclaimed,
         round.winner_prize_unclaimed)

/-- instructions/claim_house_fee.rs (claim_house_fee, lines 50-105): the
configured treasury pulls an unclaimed house fee. -/
def claim_house_fee (config : GameConfig) (round : GameRound)
    (vaultLamports treasury : Nat) : Except Domin8Error (GameRound × Nat × Nat) :=
  if treasury ≠ config.treasury then .error .InvalidTreasury
  else if round.status ≠ GameStatus.Finished then .error .InvalidGameStatus
  else if round.house_fee_unclaimed = 0 then .error .AlreadyClaimed
  else if vaultLamports < round.house_fee_unclaimed then
    .error .InsufficientFunds
  else
    .ok ({ round with house_fee_unclaimed := 0 },
         vaultLamports - round.house_fee_unclaimed,
         round.house_fee_unclaimed)

/-- A finished round with a 5-lamport unclaimed prize and a 3-lamport
unclaimed fee. -/
def exUnclaimedRound : GameRound :=
  { exRound with
    round_id := 6
    status := .Finished
    winner := 9
    winner_prize_unclaimed := 5
    house_fee_unclaimed := 3 }

/-- C7 (counterexample): the claim says that for a Finished round,
claim_winner_prize succeeds iff the caller is the stored winner and
winner_prize_unclaimed > 0.  Here the round is Finished, the caller (9)
is the stored winner and the unclaimed prize is 5 > 0, yet the call fails,
because the vault balance (3) does not cover the prize — a precondition
the claim omits. -/
theorem claim_vault_balance_cex :
    exUnclaimedRound.status = .Finished ∧
    (9 : Nat) = exUnclaimedRound.winner ∧
    0 < exUnclaimedRound.winner_prize_unclaimed ∧
    claim_winner_prize exUnclaimedRound 3 9 = .error .InsufficientFunds := by
  decide

/-- C7 (amended): for a Finished round, claim_winner_prize succeeds iff
the caller is the stored winner, winner_prize_unclaimed > 0 AND the vault
balance covers it; on success it transfers exactly that amount, zeroes the
field, and an immediate second call fails with AlreadyClaimed (no double
transfer); symmetrically for claim_house_fee against the stored
treasury. -/
theorem claims_exactly_once :
    (∀ (round : GameRound) (vaultLamports winner : Nat),
      (∃ out, claim_winner_prize round vaultLamports winner = .ok out) ↔
      (winner = round.winner ∧ round.status = GameStatus.Finished ∧
       0 < round.winner_prize_unclaimed ∧
       round.winner_prize_unclaimed ≤ vaultLamports)) ∧
    (∀ (round : GameRound) (vaultLamports winner : Nat)
      (r2 : GameRound) (v2 paid : Nat),
      claim_winner_prize round vaultLamports winner = .ok (r2, v2, paid) →
      paid = round.winner_prize_unclaimed ∧ r2.winner_prize_unclaimed = 0 ∧
      v2 = vaultLamports - paid ∧
      claim_winner_prize r2 v2 winner = .error .AlreadyClaimed) ∧
    (∀ (config : GameConfig) (round : GameRound) (vaultLamports treasury : Nat),
      (∃ out, claim_house_fee config round vaultLamports treasury = .ok out) ↔
      (treasury = config.treasury ∧ round.status = GameStatus.Finished ∧
       0 < round.house_fee_unclaimed ∧
       round.house_fee_unclaimed ≤ vaultLamports)) ∧
    (∀ (config : GameConfig) (round : GameRound) (vaultLamports treasury : Nat)
      (r2 : GameRound) (v2 paid : Nat),
      claim_house_fee config round vaultLamports treasury = .ok (r2, v2, paid) →
      paid = round.house_fee_unclaimed ∧ r2.house_fee_unclaimed = 0 ∧
      v2 = vaultLamports - paid ∧
      claim_house_fee config r2 v2 treasury = .error .AlreadyClaimed) := by
  refine ⟨?_, ?_, ?_, ?_⟩
  · intro round vaultLamports winner
    unfold claim_winner_prize
    split_ifs with h1 h2 h3 h4
    · simp [h1]
    · simp [h2]
    · simp [h3]
    · simp
      omega
    · simp
      refine ⟨by simpa using h1, by simpa using h2, by omega, by omega⟩
  · intro round vaultLamports winner r2 v2 paid hsucc
    unfold claim_winner_prize at hsucc
    split_ifs at hsucc with h1 h2 h3 h4
    simp only [Except.ok.injEq, Prod.mk.injEq] at hsucc
    obtain ⟨hr2, hv2, hpaid⟩ := hsucc
    subst hr2
    subst hpaid
    refine ⟨rfl, rfl, hv2.symm, ?_⟩
    unfold claim_winner_prize
    rw [if_neg (by simpa using h1), if_neg (by simpa using h2), if_pos rfl]
  · intro config round vaultLamports treasury
    unfold claim_house_fee
    split_ifs with h1 h2 h3 h4
    · simp [h1]
    · simp [h2]
    · simp [h3]
    · simp
      omega
    · simp
      refine ⟨by simpa using h1, by simpa using h2, by omega, by omega⟩
  · intro config round vaultLamports treasury r2 v2 paid hsucc
    unfold claim_house_fee at hsucc
    split_ifs at hsucc with h1 h2 h3 h4
    simp only [Except.ok.injEq, Prod.mk.injEq] at hsucc
    obtain ⟨hr2, hv2, hpaid⟩ := hsucc
    subst hr2
    subst hpaid
    refine ⟨rfl, rfl, hv2.symm, ?_⟩
    unfold claim_house_fee
    rw [if_neg (by simpa using h1), if_neg (by simpa using h2), if_pos rfl]

/-- Outcome of a concrete successful prize claim. -/
def exClaimOut : GameRound × Nat × Nat :=
  (claim_winner_prize exUnclaimedRound 100 9).toOption.getD default

/-- Outcome of a concrete successful house-fee claim. -/
def exFeeClaimOut : GameRound × Nat × Nat :=
  (claim_house_fee exConfig exUnclaimedRound 100 2).toOption.getD default

/-- C7 (witness): a concrete prize claim pays exactly the 5 unclaimed
lamports once and fails with AlreadyClaimed when repeated; likewise the
3-lamport fee claim. -/
theorem claims_exactly_once_witness :
    claim_winner_prize exUnclaimedRound 100 9 =
      .ok (exClaimOut.1, exClaimOut.2.1, exClaimOut.2.2) ∧
    exClaimOut.2.2 = exUnclaimedRound.winner_prize_unclaimed ∧
    exClaimOut.1.winner_prize_unclaimed = 0 ∧
    exClaimOut.2.1 = 100 - exClaimOut.2.2 ∧
    claim_winner_prize exClaimOut.1 exClaimOut.2.1 9 = .error .AlreadyClaimed ∧
    claim_house_fee exConfig exUnclaimedRound 100 2 =
      .ok (exFeeClaimOut.1, exFeeClaimOut.2.1, exFeeClaimOut.2.2) ∧
    claim_house_fee exConfig exFeeClaimOut.1 exFeeClaimOut.2.1 2 =
      .error .AlreadyClaimed := by
  have h1 : claim_winner_prize exUnclaimedRound 100 9 =
      .ok (exClaimOut.1, exClaimOut.2.1, exClaimOut.2.2) := by decide
  have h2 : claim_house_fee exConfig exUnclaimedRound 100 2 =
      .ok (exFeeClaimOut.1, exFeeClaimOut.2.1, exFeeClaimOut.2.2) := by decide
  obtain ⟨ha, hb, hc, hd⟩ := claims_exactly_once.2.1 exUnclaimedRound 100 9
    exClaimOut.1 exClaimOut.2.1 exClaimOut.2.2 h1
  obtain ⟨_, _, _, hh⟩ := claims_exactly_once.2.2.2 exConfig exUnclaimedRound
    100 2 exFeeClaimOut.1 exFeeClaimOut.2.1 exFeeClaimOut.2.2 h2
  exact ⟨h1, ha, hb, hc, hd, h2, hh⟩

/-! ### C8: emergency refund on VRF timeout -/

/-- getD on a prefix agrees with getD on the list inside the prefix. -/
lemma getD_take (l : List Nat) : ∀ n i, i < n →
    (l.take n).getD i 0 = l.getD i 0 := by
  induction l with
  | nil => intro n i _; simp
  | cons a t ih =>
    intro n i hin
    cases n with
    | zero => omega
    | succ m =>
      cases i with
      | zero => simp
      | succ j =>
        simp only [List.take_succ_cons, List.getD_cons_succ]
        exact ih m j (by omega)

/-- The pair at index i of a zip, filtered on a positive second component,
is a member of the filtered zip. -/
lemma zip_filter_mem (ws amts : List Nat) (i : Nat) (hi : i < amts.length)
    (hlen : amts.length ≤ ws.length) (hpos : 0 < amts.getD i 0) :
    (ws.getD i 0, amts.getD i 0) ∈
      (ws.zip amts).filter (fun p => 0 < p.2) := by
  have hiw : i < ws.length := by omega
  have hzlen : i < (ws.zip amts).length := by
    simp only [List.length_zip]
    omega
  have hw : ws.getD i 0 = ws[i] := List.getD_eq_getElem ws 0 hiw
  have ha : amts.getD i 0 = amts[i] := List.getD_eq_getElem amts 0 hi
  have hget : (ws.zip amts)[i] = (ws[i], amts[i]) := by
    simp [List.getElem_zip]
  have hmem : (ws.zip amts)[i] ∈ ws.zip amts := List.getElem_mem hzlen
  refine List.mem_filter.mpr ⟨?_, ?_⟩
  · rw [hw, ha, ← hget]
    exact hmem
  · simp only [decide_eq_true_eq]
    omega

/-- Committed state of a successful timeout refund: unlocked config, the
reset round, the debited vault, and the itemized (wallet, amount) refund
transfers that were executed. -/
structure RefundResult where
  config : GameConfig
  round : GameRound
  vaultLamports : Nat
  transfers : List (Nat × Nat)
  deriving DecidableEq, Repr, Inhabited

/-- instructions/emergency_refund_vrf_timeout.rs
(emergency_refund_vrf_timeout, lines 60-151).  walletAccounts are the
player wallets the backend passes in bet order (remaining_accounts);
VRF_TIMEOUT_SECONDS = 600.  Each bet entry with a positive amount is
transferred exactly bet_amounts[i] to walletAccounts[i] through a
must-succeed CPI (an underfunded vault aborts the whole call and commits
nothing), the running checked total must not overflow u64, and on success
the round is reset (Finished, no winner, no unclaimed amounts) and the
global lock released.  The counter account is only used to locate the
round and is not mutated. -/
def emergency_refund_vrf_timeout (config : GameConfig) (round : GameRound)
    (vaultLamports authority : Nat) (walletAccounts : List Nat) (now : Int) :
    Except Domin8Error RefundResult :=
  if authority ≠ config.authority then .error .Unauthorized
  else if round.status ≠ GameStatus.AwaitingWinnerRandomness then
    .error .InvalidGameStatus
  else if now - round.end_timestamp < 600 then .error .InvalidGameStatus
  else if walletAccounts.length < round.bet_count then .error .InvalidBetEntry
  else if U64MOD ≤ (round.bet_amounts.take round.bet_count).sum then
    .error .ArithmeticOverflow
  else if vaultLamports < (round.bet_amounts.take round.bet_count).sum then
    .error .InsufficientFunds
  else
    .ok { config := { config with bets_locked := false }
          round := { round with
            status := .Finished
            winner := 0
            winning_bet_index := 0
            winner_prize_unclaimed := 0
            house_fee_unclaimed := 0 }
          vaultLamports :=
            vaultLamports - (round.bet_amounts.take round.bet_count).sum
          transfers :=
            ((walletAccounts.take round.bet_count).zip
              (round.bet_amounts.take round.bet_count)).filter
              (fun p => 0 < p.2) }

/-- C8: a successful refund_on_timeout implies the round was in
AwaitingWinnerRandomness with at least 600 seconds (10 minutes) elapsed
past end_timestamp; it repays each recorded bet i with a positive stake
exactly bet_amounts[i] to the wallet passed at position i (the bet's
original wallet, itemized rather than pro-rata), debits the vault by
exactly the sum of the active stakes, resets the round (Finished, winner
and both unclaimed fields cleared) and releases the global lock — all
without any randomness. -/
theorem timeout_refund_spec (config : GameConfig) (round : GameRound)
    (vaultLamports authority : Nat) (walletAccounts : List Nat) (now : Int)
    (res : RefundResult) (hlen : round.bet_amounts.length = 64)
    (hcnt : round.bet_count ≤ 64)
    (hsucc : emergency_refund_vrf_timeout config round vaultLamports authority
      walletAccounts now = .ok res) :
    round.status = GameStatus.AwaitingWinnerRandomness ∧
    600 ≤ now - round.end_timestamp ∧
    res.round.status = .Finished ∧
    res.round.winner = 0 ∧
    res.round.winner_prize_unclaimed = 0 ∧
    res.round.house_fee_unclaimed = 0 ∧
    res.round.total_pot = round.total_pot ∧
    res.config.bets_locked = false ∧
    res.vaultLamports =
      vaultLamports - (round.bet_amounts.take round.bet_count).sum ∧
    (∀ i, i < round.bet_count → 0 < round.bet_amounts.getD i 0 →
      (walletAccounts.getD i 0, round.bet_amounts.getD i 0) ∈ res.transfers) := by
  unfold emergency_refund_vrf_timeout at hsucc
  split_ifs at hsucc with h1 h2 h3 h4 h5 h6
  simp only [Except.ok.injEq] at hsucc
  subst hsucc
  refine ⟨by simpa using h2, by omega, rfl, rfl, rfl, rfl, rfl, rfl, rfl, ?_⟩
  intro i hic hipos
  have htake : (round.bet_amounts.take round.bet_count).getD i 0 =
      round.bet_amounts.getD i 0 := getD_take _ _ _ hic
  have hwtake : (walletAccounts.take round.bet_count).getD i 0 =
      walletAccounts.getD i 0 := getD_take _ _ _ hic
  have hmem := zip_filter_mem (walletAccounts.take round.bet_count)
    (round.bet_amounts.take round.bet_count) i
    (by simp [List.length_take]; omega)
    (by simp [List.length_take]; omega)
    (by rw [htake]; exact hipos)
  rw [htake, hwtake] at hmem
  exact hmem

/-- Outcome of a concrete successful timeout refund. -/
def exRefundOut : RefundResult :=
  (emergency_refund_vrf_timeout exLockedConfig exAwaitRound 100000000 1
    [11, 12] 1000).toOption.getD default

/-- C8 (witness): a concrete stuck round (window ended at 30, now 1000)
is refunded: both 0.01 SOL bets go back to their wallets itemized, the
round is reset and the lock released. -/
theorem timeout_refund_spec_witness :
    emergency_refund_vrf_timeout exLockedConfig exAwaitRound 100000000 1
      [11, 12] 1000 = .ok exRefundOut ∧
    exRefundOut.round.status = .Finished ∧
    exRefundOut.config.bets_locked = false ∧
    (11, 10000000) ∈ exRefundOut.transfers ∧
    (12, 10000000) ∈ exRefundOut.transfers ∧
    exRefundOut.vaultLamports = 100000000 - 20000000 := by
  have hs : emergency_refund_vrf_timeout exLockedConfig exAwaitRound 100000000
      1 [11, 12] 1000 = .ok exRefundOut := by decide
  have hpost := timeout_refund_spec exLockedConfig exAwaitRound 100000000 1
    [11, 12] 1000 exRefundOut (by decide) (by decide) hs
  refine ⟨hs, hpost.2.2.1, hpost.2.2.2.2.2.2.2.1, ?_, ?_, ?_⟩
  · have := hpost.2.2.2.2.2.2.2.2.2 0 (by decide) (by decide)
    simpa using this
  · have := hpost.2.2.2.2.2.2.2.2.2 1 (by decide) (by decide)
    simpa using this
  · have := hpost.2.2.2.2.2.2.2.2.1
    simpa using this

end Domin8
